import Mathlib

/-
Verification of the dependency-checked resource teardown engine of the
aws-swiffer repository, as a shallow embedding in Lean 4.

Provider interaction is modelled by explicit oracles (`SubnetWorld`,
client-cache state, user choice), and each embedded operation returns,
next to its result, the ordered trace of provider calls and log messages
it performs, so that "no mutating call happens" and "this message is
logged" become statements about that trace.
-/

deriving instance DecidableEq for Except

namespace AwsSwiffer

/-! ## ExecutionContext (src/aws_swiffer/utils/context.py) -/

/-- ExecutionContext dataclass from utils/context.py: dry-run and
auto-approve flags plus region/profile. -/
structure ExecutionContext where
  dry_run : Bool := false
  auto_approve : Bool := false
  region : Option String := none
  profile : Option String := none
deriving DecidableEq, Repr

/-- Method log_prefix of ExecutionContext (renamed logPref here):
returns "[DRY-RUN] " when dry_run, else "[AUTO-APPROVE] " when
auto_approve, else the empty string. -/
def ExecutionContext.logPref (c : ExecutionContext) : String :=
  if c.dry_run then "[DRY-RUN] "
  else if c.auto_approve then "[AUTO-APPROVE] "
  else ""

/-- Python truthiness of the optional context argument: the log prefix
used by a method receiving `context: ExecutionContext = None`. -/
def ctxPref : Option ExecutionContext → String
  | some c => c.logPref
  | none => ""

/-- Value of `context and context.dry_run` for an optional context. -/
def ctxDry : Option ExecutionContext → Bool
  | some c => c.dry_run
  | none => false

/-! ## Confirmation gate (src/aws_swiffer/resources/IResource.py and
src/aws_swiffer/utils/input.py) -/

/-- Body of ask_delete_confirm from utils/input.py: runs the no/yes
dialog and returns the choice the user makes; the interactive answer is
supplied here as the oracle `userChoice`. -/
def ask_delete_confirm (resource_name : String) (userChoice : Bool) : Bool :=
  let _ := resource_name
  userChoice

/-- Number of parameters in the definition
`def ask_delete_confirm(resource_name: str)` in utils/input.py. -/
def ask_delete_confirm_paramCount : Nat := 1

/-- Number of positional arguments at the call site
`ask_delete_confirm(self.name, context)` in IResource._should_proceed. -/
def should_proceed_callArgCount : Nat := 2

/-- Dynamic call of ask_delete_confirm as written in
IResource._should_proceed: Python raises a TypeError when the argument
count does not match the parameter count of the callee. -/
def call_ask_delete_confirm (resource_name : String) (userChoice : Bool) :
    Except String Bool :=
  if should_proceed_callArgCount = ask_delete_confirm_paramCount then
    .ok (ask_delete_confirm resource_name userChoice)
  else
    .error "TypeError: ask_delete_confirm() takes 1 positional argument but 2 were given"

/-- Result of IResource._should_proceed: either a boolean decision or a
raised exception, together with the log messages it emitted. -/
structure ProceedOutcome where
  result : Except String Bool
  logs : List String
deriving DecidableEq, Repr

/-- IResource._should_proceed from resources/IResource.py: dry-run logs
"Would ..." and refuses, auto-approve logs and proceeds, otherwise the
interactive confirmation call is made. -/
def should_proceed (name : String) (context : Option ExecutionContext)
    (operation_description : String) (userChoice : Bool) : ProceedOutcome :=
  match context with
  | some c =>
    if c.dry_run then
      { result := .ok false
        logs := [c.logPref ++ "Would " ++ operation_description ++ ": " ++ name] }
    else if c.auto_approve then
      { result := .ok true
        logs := [c.logPref ++ "Auto-approving " ++ operation_description ++ ": " ++ name] }
    else
      { result := call_ask_delete_confirm name userChoice, logs := [] }
  | none =>
    { result := call_ask_delete_confirm name userChoice, logs := [] }

/-! ## Teardown orchestrator (src/aws_swiffer/command/base.py) -/

/-- One resource as seen by BaseCommand: its ARN and the outcome of
calling its remove method (normal return or raised exception). -/
structure BatchResource where
  arn : String
  removeResult : Except String Unit
deriving DecidableEq, Repr

/-- BaseCommand._execute_removal: logs "Processing resource", calls
remove, and on exception logs the failure and re-raises it. Returns the
propagated outcome and the logs. -/
def execute_removal (pref : String) (r : BatchResource) :
    Except String Unit × List String :=
  let logs := [pref ++ "Processing resource: " ++ r.arn]
  match r.removeResult with
  | .ok _ => (.ok (), logs)
  | .error e => (.error e, logs ++ ["Failed to remove resource " ++ r.arn ++ ": " ++ e])

/-- Aggregate outcome of BaseCommand._execute_batch_removal: the two
counters, the ARNs on which remove was invoked (in order), and the logs. -/
structure BatchOutcome where
  success : Nat
  failure : Nat
  attempted : List String
  logs : List String
deriving DecidableEq, Repr

/-- The for-loop of BaseCommand._execute_batch_removal: every resource is
processed; an exception from remove is logged and counted as a failure,
a normal return is counted as a success, and the loop continues. -/
def batchLoop (pref : String) : List BatchResource → BatchOutcome
  | [] => { success := 0, failure := 0, attempted := [], logs := [] }
  | r :: rest =>
    let procLog := pref ++ "Processing resource: " ++ r.arn
    let o := batchLoop pref rest
    match r.removeResult with
    | .ok _ =>
      { success := o.success + 1, failure := o.failure,
        attempted := r.arn :: o.attempted, logs := procLog :: o.logs }
    | .error e =>
      { success := o.success, failure := o.failure + 1,
        attempted := r.arn :: o.attempted,
        logs := procLog :: ("Failed to remove resource " ++ r.arn ++ ": " ++ e) :: o.logs }

/-- BaseCommand._execute_batch_removal: empty input short-circuits with a
"No resources to process" log; otherwise the loop runs and a final
summary "{success} succeeded, {failure} failed" is logged. -/
def execute_batch_removal (pref : String) (resources : List BatchResource) :
    BatchOutcome :=
  if resources.isEmpty then
    { success := 0, failure := 0, attempted := [], logs := ["No resources to process"] }
  else
    let o := batchLoop pref resources
    { o with
      logs := o.logs ++
        [pref ++ "Batch operation complete: " ++ toString o.success ++
          " succeeded, " ++ toString o.failure ++ " failed"] }

/-- Test deciding whether a remove outcome counts as a success. -/
def removeOk (r : BatchResource) : Bool :=
  match r.removeResult with
  | .ok _ => true
  | .error _ => false

/-! ## Dependency edges (src/aws_swiffer/resources/vpc/VPCResource.py,
add_dependency) -/

/-- State touched by VPCResource.add_dependency(a, b): the dependencies
list of a and the dependents list of b, holding resource identities. -/
structure DepState where
  a_dependencies : List String
  b_dependents : List String
deriving DecidableEq, Repr

/-- VPCResource.add_dependency from resources/vpc/VPCResource.py: if b is
not already in a.dependencies it is appended, and then a is appended to
b.dependents when not already present. -/
def add_dependency (a b : String) (s : DepState) : DepState :=
  if b ∈ s.a_dependencies then s
  else if a ∈ s.b_dependents then
    { s with a_dependencies := s.a_dependencies ++ [b] }
  else
    { s with a_dependencies := s.a_dependencies ++ [b],
             b_dependents := s.b_dependents ++ [a] }

/-! ## Client cache (src/aws_swiffer/utils/aws.py) -/

/-- Module-level state of utils/aws.py: the `clients` dict (keys mapped
to client handles, here numbered) plus a counter supplying the handle a
fresh boto3.client(...) call would produce. -/
structure ClientsState where
  clients : List (String × Nat)
  nextHandle : Nat
deriving DecidableEq, Repr

/-- Python dict membership test `k in d`. -/
def dictHasKey (d : List (String × Nat)) (k : String) : Bool :=
  d.any (fun p => p.1 == k)

/-- Python dict lookup `d[k]`, returning none where Python raises
KeyError. -/
def dictGet (d : List (String × Nat)) (k : String) : Option Nat :=
  (d.find? (fun p => p.1 == k)).map (fun p => p.2)

/-- Python dict assignment `d[k] = v` (overwrites an existing key). -/
def dictInsert (d : List (String × Nat)) (k : String) (v : Nat) :
    List (String × Nat) :=
  if dictHasKey d k then
    d.map (fun p => if p.1 == k then (k, v) else p)
  else
    d ++ [(k, v)]

/-- get_client from utils/aws.py. The region defaults via the AWS_REGION
environment variable (here the oracle env_region) to "eu-west-1"; the
cache key is service_name + "_" + region, but the cache-hit test is
`if service_name not in clients`, i.e. it tests the bare service name
against the stored keys. The returned value is `clients[key]`. -/
def get_client (service_name : String) (region : Option String)
    (env_region : Option String) (s : ClientsState) :
    Except String Nat × ClientsState :=
  let reg := match region with
    | none => env_region.getD "eu-west-1"
    | some r => if r = "" then env_region.getD "eu-west-1" else r
  let key := service_name ++ "_" ++ reg
  if dictHasKey s.clients service_name then
    match dictGet s.clients key with
    | some h => (.ok h, s)
    | none => (.error "KeyError", s)
  else
    let h := s.nextHandle
    let s2 : ClientsState :=
      { clients := dictInsert s.clients key h, nextHandle := h + 1 }
    match dictGet s2.clients key with
    | some h2 => (.ok h2, s2)
    | none => (.error "KeyError", s2)

/-- get_resource from utils/aws.py, the sibling of get_client whose
cache-hit test uses the full key: `if key not in resources`. -/
def get_resource (service_name : String) (region : Option String)
    (env_region : Option String) (s : ClientsState) :
    Except String Nat × ClientsState :=
  let reg := match region with
    | none => env_region.getD "eu-west-1"
    | some r => if r = "" then env_region.getD "eu-west-1" else r
  let key := service_name ++ "_" ++ reg
  if dictHasKey s.clients key then
    match dictGet s.clients key with
    | some h => (.ok h, s)
    | none => (.error "KeyError", s)
  else
    let h := s.nextHandle
    let s2 : ClientsState :=
      { clients := dictInsert s.clients key h, nextHandle := h + 1 }
    match dictGet s2.clients key with
    | some h2 => (.ok h2, s2)
    | none => (.error "KeyError", s2)

/-! ## ARN validation (src/aws_swiffer/utils/helper.py and
src/aws_swiffer/factory/codepipeline/CodepipelineFactory.py) -/

/-- Text of the regular expression literal arn_re in
utils/helper.py (a Python raw string: the backslashes are literal). -/
def arn_re : String :=
  "^arn:(?P<Partition>[^:\\n]*):(?P<Service>[^:\\n]*):(?P<Region>[^:\\n]*):(?P<AccountID>[^:\\n]*):(?P<Ignore>(?P<ResourceType>[^:\\/\\n]*)[:\\/])?(?P<Resource>.*)$"

/-- Model of Python re.match(pattern, subject) for a pattern free of
regex metacharacters: such a pattern matches exactly when it is a
literal prefix of the subject (re.match anchors at the start). -/
def re_match_literal (pattern subject : String) : Option String :=
  if pattern.data.isPrefixOf subject.data then some pattern else none

/-- validate_arn from utils/helper.py: the two arguments of re.match are
given as `re.match(arn, arn_re)`, so the ARN is used as the pattern and
the regex text as the subject. -/
def validate_arn (arn : String) : Option String :=
  re_match_literal arn arn_re

/-- Codepipeline resource identity as built by the factory. -/
structure Codepipeline where
  arn : String
  name : String
deriving DecidableEq, Repr

/-- CodepipelineFactory.create_by_arn: calls validate_arn (discarding its
result) and then builds the resource with name = arn.split(":")[-1]. -/
def create_by_arn (arn : String) : Codepipeline :=
  let _ := validate_arn arn
  { arn := arn, name := (arn.splitOn ":").getLastD "" }

/-! ## Generic VPC dependency walk
(src/aws_swiffer/resources/vpc/VPCResource.py, can_delete) -/

/-- One VPCResource node: identity, the result of its
is_default_resource() check, and the list of VPCResource objects in its
dependencies attribute (each dependency carries its own sub-structure,
which VPCResource.can_delete never inspects). -/
inductive VPCNode where
  | mk (arn : String) (is_default : Bool) (dependencies : List VPCNode)

/-- ARN of a node. -/
def VPCNode.arn : VPCNode → String
  | .mk a _ _ => a

/-- Result of the is_default_resource() call on the node. -/
def VPCNode.is_default : VPCNode → Bool
  | .mk _ d _ => d

/-- Direct dependencies of the node. -/
def VPCNode.dependencies : VPCNode → List VPCNode
  | .mk _ _ deps => deps

/-- For-loop of VPCResource.can_delete over self.dependencies: each
dependency has exists() called on it (a provider query on that
dependency's identity, the oracle `exOracle`), returning False at the
first live dependency. The second component records, in order, the
identities on which exists() was invoked. -/
def depWalk (exOracle : String → Bool) : List VPCNode → Bool × List String
  | [] => (true, [])
  | d :: rest =>
    if exOracle d.arn then (false, [d.arn])
    else
      ((depWalk exOracle rest).1, d.arn :: (depWalk exOracle rest).2)

/-- VPCResource.can_delete from resources/vpc/VPCResource.py: a default
resource is never deletable (returning before any dependency is
examined); otherwise the direct dependencies are walked. The second
component is the trace of exists() queries made. -/
def vpcNode_can_delete (exOracle : String → Bool) (n : VPCNode) :
    Bool × List String :=
  if n.is_default then (false, [])
  else depWalk exOracle n.dependencies

/-! ## VPCResourceCollection (src/aws_swiffer/factory/vpc/VPCFactory.py) -/

/-- One resource held in a VPCResourceCollection: its identity, its tag
list (key/value pairs; the empty list plays the role of Python
None-or-empty tags), and the result of its is_default_resource() call. -/
structure CollResource where
  arn : String
  tags : List (String × String)
  is_default : Bool
deriving DecidableEq, Repr

/-- Python dict comprehension over the resource tags followed by .get:
the value of the last tag entry with the given key, if any. -/
def tagDictGet (rtags : List (String × String)) (k : String) : Option String :=
  (rtags.reverse.find? (fun p => p.1 == k)).map (fun p => p.2)

/-- Inner predicate matches_tags of VPCResourceCollection.filter_by_tags:
a resource without tags matches only the empty filter; otherwise every
filter pair must equal the resource's tag-dict entry for that key. -/
def matches_tags (tags : List (String × String)) (r : CollResource) : Bool :=
  if r.tags.isEmpty then tags.isEmpty
  else tags.all (fun p => tagDictGet r.tags p.1 == some p.2)

/-- VPCResourceCollection from factory/vpc/VPCFactory.py: one list per
VPC resource type. -/
structure VPCResourceCollection where
  vpc_id : String
  subnets : List CollResource := []
  security_groups : List CollResource := []
  route_tables : List CollResource := []
  network_acls : List CollResource := []
  network_interfaces : List CollResource := []
  nat_gateways : List CollResource := []
  vpc_endpoints : List CollResource := []
  internet_gateways : List CollResource := []
  elastic_ips : List CollResource := []
  vpc_peering_connections : List CollResource := []
deriving DecidableEq, Repr

/-- The ten per-type resource lists, indexed for uniform statements. -/
inductive VpcResourceType where
  | subnet | securityGroup | routeTable | networkAcl | networkInterface
  | natGateway | vpcEndpoint | internetGateway | elasticIp | vpcPeering
deriving DecidableEq, Repr

/-- Projection of a collection onto one resource-type list. -/
def VPCResourceCollection.byType (c : VPCResourceCollection) :
    VpcResourceType → List CollResource
  | .subnet => c.subnets
  | .securityGroup => c.security_groups
  | .routeTable => c.route_tables
  | .networkAcl => c.network_acls
  | .networkInterface => c.network_interfaces
  | .natGateway => c.nat_gateways
  | .vpcEndpoint => c.vpc_endpoints
  | .internetGateway => c.internet_gateways
  | .elasticIp => c.elastic_ips
  | .vpcPeering => c.vpc_peering_connections

/-- VPCResourceCollection.filter_by_tags: builds a fresh collection whose
lists are the list comprehensions filtering each type by matches_tags.
The second component is the receiver after the call: the method only
reads self, so self is returned unchanged. -/
def filter_by_tags (self : VPCResourceCollection)
    (tags : List (String × String)) :
    VPCResourceCollection × VPCResourceCollection :=
  let filtered : VPCResourceCollection :=
    { vpc_id := self.vpc_id
      subnets := self.subnets.filter (matches_tags tags)
      security_groups := self.security_groups.filter (matches_tags tags)
      route_tables := self.route_tables.filter (matches_tags tags)
      network_acls := self.network_acls.filter (matches_tags tags)
      network_interfaces := self.network_interfaces.filter (matches_tags tags)
      nat_gateways := self.nat_gateways.filter (matches_tags tags)
      vpc_endpoints := self.vpc_endpoints.filter (matches_tags tags)
      internet_gateways := self.internet_gateways.filter (matches_tags tags)
      elastic_ips := self.elastic_ips.filter (matches_tags tags)
      vpc_peering_connections := self.vpc_peering_connections.filter (matches_tags tags) }
  (filtered, self)

/-- VPCResourceCollection.exclude_default_resources: a fresh collection
keeping, per type, the resources whose is_default_resource() is false;
self is only read and returned unchanged as second component. -/
def exclude_default_resources (self : VPCResourceCollection) :
    VPCResourceCollection × VPCResourceCollection :=
  let keep := fun (r : CollResource) => !r.is_default
  let filtered : VPCResourceCollection :=
    { vpc_id := self.vpc_id
      subnets := self.subnets.filter keep
      security_groups := self.security_groups.filter keep
      route_tables := self.route_tables.filter keep
      network_acls := self.network_acls.filter keep
      network_interfaces := self.network_interfaces.filter keep
      nat_gateways := self.nat_gateways.filter keep
      vpc_endpoints := self.vpc_endpoints.filter keep
      internet_gateways := self.internet_gateways.filter keep
      elastic_ips := self.elastic_ips.filter keep
      vpc_peering_connections := self.vpc_peering_connections.filter keep }
  (filtered, self)

/-! ## Subnet teardown (src/aws_swiffer/resources/vpc/SubnetResource.py)

Every provider API invocation made by the subnet operations is recorded
as an `ApiCall`; delete/detach/disassociate calls are the mutating ones,
describe calls are reads. -/

/-- Provider API calls issued by the subnet operations, plus the exists()
query a dependency walk performs on a dependency object. -/
inductive ApiCall where
  | describeSubnets (subnet_id : String)
  | dependencyExists (arn : String)
  | describeNetworkInterfaces (subnet_id : String)
  | describeInstances (subnet_id : String)
  | describeRouteTables (subnet_id : String)
  | deleteSubnet (subnet_id : String)
  | detachNetworkInterface (attachment_id : String)
  | deleteNetworkInterface (eni_id : String)
  | disassociateRouteTable (association_id : String)
deriving DecidableEq, Repr

/-- An API call is mutating when it deletes, detaches or disassociates. -/
def ApiCall.isMutating : ApiCall → Bool
  | .deleteSubnet _ => true
  | .detachNetworkInterface _ => true
  | .deleteNetworkInterface _ => true
  | .disassociateRouteTable _ => true
  | _ => false

/-- Trace events: a provider API call or a log message. -/
inductive Event where
  | api (c : ApiCall)
  | log (msg : String)
deriving DecidableEq, Repr

/-- An event is mutating when it is a mutating API call. -/
def Event.isMut : Event → Bool
  | .api c => c.isMutating
  | .log _ => false

/-- An event is a dependency or usage check of SubnetResource.can_delete
(a dependency exists() query, or the network-interface / instance usage
describes). -/
def Event.isDepOrUsageCheck : Event → Bool
  | .api (.dependencyExists _) => true
  | .api (.describeNetworkInterfaces _) => true
  | .api (.describeInstances _) => true
  | _ => false

/-- Structured AWS client error (botocore ClientError) with its
machine-readable code. -/
structure ClientError where
  code : String
  msg : String
deriving DecidableEq, Repr

/-- Relevant part of one subnet record returned by describe_subnets. -/
structure Ec2Subnet where
  default_for_az : Bool
deriving DecidableEq, Repr

/-- Attachment record of a network interface; instance_id is none when
the record has no (or an empty) InstanceId. -/
structure EniAttachment where
  attachment_id : String
  instance_id : Option String
deriving DecidableEq, Repr

/-- One network interface record as consumed by the subnet operations;
attachment is none when the record has no Attachment entry. -/
structure Eni where
  eni_id : String
  status : String
  interface_type : String
  attachment : Option EniAttachment
deriving DecidableEq, Repr

/-- One instance record (id and state) as consumed by can_delete. -/
structure Ec2Instance where
  instance_id : String
  state : String
deriving DecidableEq, Repr

/-- One route-table association record. -/
structure RtAssociation where
  main : Bool
  subnet_id : Option String
  association_id : String
deriving DecidableEq, Repr

/-- One route-table record with its associations. -/
structure RouteTable where
  route_table_id : String
  associations : List RtAssociation
deriving DecidableEq, Repr

/-- Provider oracle for one subnet's operations: the outcome each AWS
call would produce, plus the user's interactive answer. -/
structure SubnetWorld where
  describe_subnets : Except ClientError Ec2Subnet
  describe_network_interfaces : Except ClientError (List Eni)
  describe_instances : Except ClientError (List Ec2Instance)
  describe_route_tables : Except ClientError (List RouteTable)
  delete_subnet : Except ClientError Unit
  detach_network_interface : String → Except ClientError Unit
  delete_network_interface : String → Except ClientError Unit
  disassociate_route_table : String → Except ClientError Unit
  user_choice : Bool

/-- One entry of the subnet's dependencies list: the dependency's
identity and the result its exists() provider query would return. -/
structure SubnetDependencyRef where
  arn : String
  live : Bool
deriving DecidableEq, Repr

/-- SubnetResource identity fields used by the embedded operations. -/
structure SubnetResource where
  arn : String
  name : String
  vpc_id : String
  subnet_id : String
  dependencies : List SubnetDependencyRef
deriving DecidableEq, Repr

/-- SubnetResource.is_default_resource: describe_subnets is queried and
the DefaultForAz flag returned; on a ClientError the check fails closed
(returns true). -/
def SubnetResource.is_default_resource (r : SubnetResource) (w : SubnetWorld) :
    Bool × List Event :=
  match w.describe_subnets with
  | .ok s =>
    if s.default_for_az then
      (true, [.api (.describeSubnets r.subnet_id),
              .log ("Subnet " ++ r.subnet_id ++ " is a default subnet and is protected")])
    else
      (false, [.api (.describeSubnets r.subnet_id)])
  | .error e =>
    (true, [.api (.describeSubnets r.subnet_id),
            .log ("Error checking if subnet " ++ r.subnet_id ++ " is default: " ++ e.msg)])

/-- For-loop of the inherited VPCResource.can_delete over the subnet's
dependencies: exists() is queried per dependency, stopping at the first
live one. -/
def subnetDepWalk (selfArn : String) : List SubnetDependencyRef → Bool × List Event
  | [] => (true, [])
  | d :: rest =>
    if d.live then
      (false, [.api (.dependencyExists d.arn),
               .log ("Cannot delete " ++ selfArn ++ " - dependency exists: " ++ d.arn)])
    else
      ((subnetDepWalk selfArn rest).1,
       Event.api (.dependencyExists d.arn) :: (subnetDepWalk selfArn rest).2)

/-- Inherited VPCResource.can_delete as invoked by the subnet via
super(): default-resource protection first, then the one-hop dependency
walk. -/
def subnet_super_can_delete (r : SubnetResource) (w : SubnetWorld) :
    Bool × List Event :=
  let idr := r.is_default_resource w
  if idr.1 then
    (false, idr.2 ++ [.log ("Cannot delete default resource: " ++ r.arn)])
  else
    (((subnetDepWalk r.arn r.dependencies)).1,
     idr.2 ++ (subnetDepWalk r.arn r.dependencies).2)

/-- SubnetResource.can_delete: the inherited check, then the
network-interface usage check, then the instance usage check; a
ClientError in either usage query makes the check fail closed. -/
def SubnetResource.can_delete (r : SubnetResource) (w : SubnetWorld) :
    Bool × List Event :=
  let sup := (subnet_super_can_delete r w).1
  let ev1 := (subnet_super_can_delete r w).2
  if !sup then (false, ev1)
  else
    let evNi := Event.api (.describeNetworkInterfaces r.subnet_id)
    match w.describe_network_interfaces with
    | .error e =>
      (false, ev1 ++ [evNi,
        .log ("Error checking network interfaces in subnet " ++ r.subnet_id ++ ": " ++ e.msg)])
    | .ok enis =>
      if !enis.isEmpty then
        (false, ev1 ++ [evNi,
          .log ("Subnet " ++ r.subnet_id ++ " has " ++ toString enis.length ++ " network interfaces")] ++
          enis.map (fun eni => Event.log ("Network interface: " ++ eni.eni_id ++
            " Status: " ++ eni.status ++ " Type: " ++ eni.interface_type)))
      else
        let evIn := Event.api (.describeInstances r.subnet_id)
        match w.describe_instances with
        | .error e =>
          (false, ev1 ++ [evNi, evIn,
            .log ("Error checking instances in subnet " ++ r.subnet_id ++ ": " ++ e.msg)])
        | .ok insts =>
          if !insts.isEmpty then
            (false, ev1 ++ [evNi, evIn,
              .log ("Subnet " ++ r.subnet_id ++ " has " ++ toString insts.length ++ " instances")] ++
              insts.map (fun i => Event.log ("Instance: " ++ i.instance_id ++
                " State: " ++ i.state)))
          else
            (true, ev1 ++ [evNi, evIn])

/-- Human-readable operation description built in SubnetResource.remove. -/
def operation_desc (r : SubnetResource) : String :=
  "delete subnet " ++ r.subnet_id ++ " (" ++ r.name ++ ") in VPC " ++ r.vpc_id

/-- The delete_subnet call of SubnetResource.remove with its ClientError
handling: NotFound, DependencyViolation and InUse are logged specially,
all ClientErrors are swallowed. -/
def subnetDeleteCall (pref : String) (r : SubnetResource) (w : SubnetWorld) :
    List Event :=
  let ev := Event.api (.deleteSubnet r.subnet_id)
  match w.delete_subnet with
  | .ok _ => [ev, .log (pref ++ "Successfully deleted subnet: " ++ r.subnet_id)]
  | .error e =>
    let l :=
      if e.code = "InvalidSubnetID.NotFound" then
        Event.log (pref ++ "Subnet " ++ r.subnet_id ++ " not found - may have been deleted already")
      else if e.code = "DependencyViolation" then
        Event.log (pref ++ "Cannot delete subnet " ++ r.subnet_id ++ " - dependency violation: " ++ e.msg)
      else if e.code = "InvalidSubnet.InUse" then
        Event.log (pref ++ "Cannot delete subnet " ++ r.subnet_id ++ " - subnet is in use: " ++ e.msg)
      else
        Event.log (pref ++ "Failed to delete subnet " ++ r.subnet_id ++ ": " ++ e.code ++ " - " ++ e.msg)
    [ev, l, .log ("Full error details: " ++ e.msg)]

/-- SubnetResource.remove: eligibility check, confirmation gate, the
dry-run re-check, then the delete call. A raised exception from the gate
propagates; ClientErrors from the delete are swallowed. -/
def SubnetResource.remove (r : SubnetResource)
    (context : Option ExecutionContext) (w : SubnetWorld) :
    Except String Unit × List Event :=
  let pref := ctxPref context
  let ev0 : List Event :=
    [.log (pref ++ "Attempting to delete subnet: " ++ r.subnet_id ++ " (" ++ r.name ++ ")")]
  let cd := (r.can_delete w).1
  let ev1 := (r.can_delete w).2
  if !cd then
    (.ok (), ev0 ++ ev1 ++
      [.log ("Cannot delete subnet " ++ r.subnet_id ++ " - dependencies exist or it\x27s protected")])
  else
    let p := should_proceed r.name context (operation_desc r) w.user_choice
    match p.result with
    | .error err => (.error err, ev0 ++ ev1 ++ p.logs.map Event.log)
    | .ok false =>
      (.ok (), ev0 ++ ev1 ++ p.logs.map Event.log ++ [.log "Subnet deletion skipped"])
    | .ok true =>
      match context with
      | some c =>
        if c.dry_run then
          (.ok (), ev0 ++ ev1 ++ p.logs.map Event.log ++
            [.log (pref ++ "Would delete subnet: " ++ r.subnet_id)])
        else
          (.ok (), ev0 ++ ev1 ++ p.logs.map Event.log ++ subnetDeleteCall pref r w)
      | none =>
        (.ok (), ev0 ++ ev1 ++ p.logs.map Event.log ++ subnetDeleteCall pref r w)

/-- Interface types skipped by _clean_network_interfaces as AWS-managed. -/
def aws_managed_interface_types : List String :=
  ["nat_gateway", "vpc_endpoint", "load_balancer", "lambda"]

/-- An ENI skipped because its type is AWS-managed. -/
def Eni.aws_managed (eni : Eni) : Bool :=
  aws_managed_interface_types.contains eni.interface_type

/-- An ENI skipped because it is attached to an instance. -/
def Eni.attached_to_instance (eni : Eni) : Bool :=
  (eni.attachment.bind (fun a => a.instance_id)).isSome

/-- Mutating part of the per-ENI cleanup (non-dry-run): detach when in
use and attached, then delete; a ClientError aborts the rest of this
ENI's cleanup and is logged. -/
def clean_eni_mutate (pref : String) (w : SubnetWorld) (eni : Eni) : List Event :=
  let deleteEvs :=
    match w.delete_network_interface eni.eni_id with
    | .ok _ =>
      [Event.api (.deleteNetworkInterface eni.eni_id),
       .log (pref ++ "Deleted network interface: " ++ eni.eni_id)]
    | .error e =>
      [Event.api (.deleteNetworkInterface eni.eni_id),
       .log (pref ++ "Failed to clean network interface " ++ eni.eni_id ++ ": " ++ e.msg)]
  match eni.attachment with
  | some a =>
    if eni.status = "in-use" then
      match w.detach_network_interface a.attachment_id with
      | .ok _ =>
        [Event.log (pref ++ "Detaching network interface: " ++ eni.eni_id),
         .api (.detachNetworkInterface a.attachment_id)] ++ deleteEvs
      | .error e =>
        [Event.log (pref ++ "Detaching network interface: " ++ eni.eni_id),
         .api (.detachNetworkInterface a.attachment_id),
         .log (pref ++ "Failed to clean network interface " ++ eni.eni_id ++ ": " ++ e.msg)]
    else deleteEvs
  | none => deleteEvs

/-- Per-ENI body of the loop in _clean_network_interfaces: AWS-managed
and instance-attached interfaces are skipped; in dry-run mode only the
"Would delete" message is logged. -/
def clean_eni_events (pref : String) (dry : Bool) (w : SubnetWorld) (eni : Eni) :
    List Event :=
  if eni.aws_managed then
    [.log (pref ++ "Skipping AWS-managed network interface: " ++ eni.eni_id ++
      " (type: " ++ eni.interface_type ++ ")")]
  else if eni.attached_to_instance then
    [.log (pref ++ "Skipping network interface attached to instance: " ++ eni.eni_id)]
  else if dry then
    [Event.log (pref ++ "Cleaning network interface: " ++ eni.eni_id ++
       " (status: " ++ eni.status ++ ")"),
     .log (pref ++ "Would delete network interface: " ++ eni.eni_id)]
  else
    Event.log (pref ++ "Cleaning network interface: " ++ eni.eni_id ++
      " (status: " ++ eni.status ++ ")") :: clean_eni_mutate pref w eni

/-- SubnetResource._clean_network_interfaces: list the subnet's ENIs and
run the per-ENI cleanup on each; a ClientError on the listing is logged. -/
def clean_network_interfaces (r : SubnetResource) (pref : String) (dry : Bool)
    (w : SubnetWorld) : List Event :=
  match w.describe_network_interfaces with
  | .error e =>
    [.api (.describeNetworkInterfaces r.subnet_id),
     .log (pref ++ "Error listing network interfaces for subnet " ++ r.subnet_id ++ ": " ++ e.msg)]
  | .ok enis =>
    Event.api (.describeNetworkInterfaces r.subnet_id) ::
      (enis.map (clean_eni_events pref dry w)).flatten

/-- Per-association body of _clean_route_table_associations: only the
associations of this subnet are touched; in dry-run mode only the
"Would disassociate" message is logged. -/
def clean_assoc_events (pref : String) (dry : Bool) (w : SubnetWorld)
    (subnet_id rtId : String) (assoc : RtAssociation) : List Event :=
  if assoc.subnet_id = some subnet_id then
    if dry then
      [Event.log (pref ++ "Disassociating route table " ++ rtId ++
         " from subnet " ++ subnet_id),
       .log (pref ++ "Would disassociate route table: " ++ assoc.association_id)]
    else
      match w.disassociate_route_table assoc.association_id with
      | .ok _ =>
        [Event.log (pref ++ "Disassociating route table " ++ rtId ++
           " from subnet " ++ subnet_id),
         .api (.disassociateRouteTable assoc.association_id),
         .log (pref ++ "Disassociated route table: " ++ assoc.association_id)]
      | .error e =>
        [Event.log (pref ++ "Disassociating route table " ++ rtId ++
           " from subnet " ++ subnet_id),
         .api (.disassociateRouteTable assoc.association_id),
         .log (pref ++ "Failed to disassociate route table " ++ assoc.association_id ++ ": " ++ e.msg)]
  else []

/-- Per-route-table body of _clean_route_table_associations: the main
route table is skipped, otherwise each association is processed. -/
def clean_rt_events (pref : String) (dry : Bool) (w : SubnetWorld)
    (subnet_id : String) (rt : RouteTable) : List Event :=
  if rt.associations.any (fun a => a.main) then
    [.log (pref ++ "Skipping main route table: " ++ rt.route_table_id)]
  else
    (rt.associations.map (clean_assoc_events pref dry w subnet_id rt.route_table_id)).flatten

/-- SubnetResource._clean_route_table_associations: list the route
tables associated to the subnet and process each; a ClientError on the
listing is logged. -/
def clean_route_table_associations (r : SubnetResource) (pref : String)
    (dry : Bool) (w : SubnetWorld) : List Event :=
  match w.describe_route_tables with
  | .error e =>
    [.api (.describeRouteTables r.subnet_id),
     .log (pref ++ "Error listing route table associations for subnet " ++ r.subnet_id ++ ": " ++ e.msg)]
  | .ok rts =>
    Event.api (.describeRouteTables r.subnet_id) ::
      (rts.map (clean_rt_events pref dry w r.subnet_id)).flatten

/-- SubnetResource.clean: the network-interface cleanup followed by the
route-table-association cleanup, with the dry-run flag re-checked inside
each (the gate is not consulted by clean). -/
def SubnetResource.clean (r : SubnetResource)
    (context : Option ExecutionContext) (w : SubnetWorld) : List Event :=
  let pref := ctxPref context
  Event.log (pref ++ "Cleaning dependencies for subnet: " ++ r.subnet_id) ::
    (clean_network_interfaces r pref (ctxDry context) w ++
     clean_route_table_associations r pref (ctxDry context) w)

/-! ## Helper lemmas -/

/-- No event of the trace is a mutating provider call. -/
def NoMut (evs : List Event) : Prop := ∀ e ∈ evs, e.isMut = false

/-- The dependency-or-usage classifier rejects no event of a trace. -/
def NoDepUsage (evs : List Event) : Prop :=
  ∀ e ∈ evs, e.isDepOrUsageCheck = false

/-- Concrete provider world in which the subnet is a default subnet. -/
def defaultSubnetWorld : SubnetWorld :=
  { describe_subnets := .ok { default_for_az := true }
    describe_network_interfaces := .ok []
    describe_instances := .ok []
    describe_route_tables := .ok []
    delete_subnet := .ok ()
    detach_network_interface := fun _ => .ok ()
    delete_network_interface := fun _ => .ok ()
    disassociate_route_table := fun _ => .ok ()
    user_choice := true }

/-- Concrete subnet resource used by the witnesses. -/
def sampleSubnet : SubnetResource :=
  { arn := "arn:aws:ec2:eu-west-1:123456789012:subnet/subnet-1"
    name := "subnet-1", vpc_id := "vpc-1", subnet_id := "subnet-1"
    dependencies := [] }

/-- Concrete dry-run context with auto_approve also set. -/
def dryCtx : ExecutionContext :=
  { dry_run := true, auto_approve := true }

/-- Concrete world with one cleanable network interface and one custom
route-table association. -/
def eniWorld : SubnetWorld :=
  { describe_subnets := .ok { default_for_az := false }
    describe_network_interfaces := .ok
      [Eni.mk "eni-1" "available" "interface" none]
    describe_instances := .ok []
    describe_route_tables := .ok
      [RouteTable.mk "rtb-1" [RtAssociation.mk false (some "subnet-1") "assoc-1"]]
    delete_subnet := .ok ()
    detach_network_interface := fun _ => .ok ()
    delete_network_interface := fun _ => .ok ()
    disassociate_route_table := fun _ => .ok ()
    user_choice := true }

theorem noMut_nil : NoMut [] := by
  intro e he
  cases he

theorem noMut_append {l1 l2 : List Event} (h1 : NoMut l1) (h2 : NoMut l2) :
    NoMut (l1 ++ l2) := by
  intro e he
  rcases List.mem_append.mp he with h | h
  · exact h1 e h
  · exact h2 e h

theorem noMut_cons {e0 : Event} {l : List Event} (h0 : e0.isMut = false)
    (h : NoMut l) : NoMut (e0 :: l) := by
  intro e he
  rcases List.mem_cons.mp he with h2 | h2
  · rw [h2]; exact h0
  · exact h e h2

theorem noMut_map_log {α : Type} (f : α → String) (l : List α) :
    NoMut (l.map (fun x => Event.log (f x))) := by
  intro e he
  rcases List.mem_map.mp he with ⟨x, _, hx⟩
  rw [← hx]
  rfl

theorem noMut_logs (l : List String) : NoMut (l.map Event.log) := by
  intro e he
  rcases List.mem_map.mp he with ⟨x, _, hx⟩
  rw [← hx]
  rfl


theorem noDepUsage_append {l1 l2 : List Event} (h1 : NoDepUsage l1)
    (h2 : NoDepUsage l2) : NoDepUsage (l1 ++ l2) := by
  intro e he
  rcases List.mem_append.mp he with h | h
  · exact h1 e h
  · exact h2 e h

/-- Equation lemma: is_default_resource when describe_subnets succeeds. -/
theorem is_default_resource_eq_ok (r : SubnetResource) (w : SubnetWorld)
    (s : Ec2Subnet) (h : w.describe_subnets = .ok s) :
    r.is_default_resource w =
      (if s.default_for_az then
        (true, [.api (.describeSubnets r.subnet_id),
                .log ("Subnet " ++ r.subnet_id ++ " is a default subnet and is protected")])
      else
        (false, [.api (.describeSubnets r.subnet_id)])) := by
  unfold SubnetResource.is_default_resource
  rw [h]

/-- Equation lemma: is_default_resource when describe_subnets fails. -/
theorem is_default_resource_eq_error (r : SubnetResource) (w : SubnetWorld)
    (er : ClientError) (h : w.describe_subnets = .error er) :
    r.is_default_resource w =
      (true, [.api (.describeSubnets r.subnet_id),
              .log ("Error checking if subnet " ++ r.subnet_id ++ " is default: " ++ er.msg)]) := by
  unfold SubnetResource.is_default_resource
  rw [h]

/-- The trace of is_default_resource holds only the describe call and
log messages: nothing mutating, no dependency check, no usage check. -/
theorem is_default_resource_events (r : SubnetResource) (w : SubnetWorld) :
    NoMut (r.is_default_resource w).2 ∧ NoDepUsage (r.is_default_resource w).2 := by
  have key : ∀ e ∈ (r.is_default_resource w).2,
      e.isMut = false ∧ e.isDepOrUsageCheck = false := by
    intro e he
    rcases hds : w.describe_subnets with er | s
    · rw [is_default_resource_eq_error r w er hds] at he
      rcases List.mem_cons.mp he with rfl | he
      · exact ⟨rfl, rfl⟩
      · rw [List.mem_singleton.mp he]
        exact ⟨rfl, rfl⟩
    · rw [is_default_resource_eq_ok r w s hds] at he
      by_cases hd : s.default_for_az
      · rw [if_pos hd] at he
        rcases List.mem_cons.mp he with rfl | he
        · exact ⟨rfl, rfl⟩
        · rw [List.mem_singleton.mp he]
          exact ⟨rfl, rfl⟩
      · rw [if_neg hd] at he
        rw [List.mem_singleton.mp he]
        exact ⟨rfl, rfl⟩
  exact ⟨fun e he => (key e he).1, fun e he => (key e he).2⟩

/-! ## Dictionary lemmas for the client cache -/

theorem dictGet_overwrite (d : List (String × Nat)) (k : String) (v : Nat)
    (h : dictHasKey d k = true) :
    dictGet (d.map (fun p => if p.1 == k then (k, v) else p)) k = some v := by
  induction d with
  | nil => simp [dictHasKey] at h
  | cons p rest ih =>
    by_cases hp : p.1 == k
    · simp [dictGet, List.find?, hp]
    · have h2 : dictHasKey rest k = true := by
        simpa [dictHasKey, hp] using h
      simp only [dictGet, List.map_cons, List.find?] at ih ⊢
      simp only [hp, Bool.false_eq_true, if_false]
      exact ih h2

theorem dictGet_append_new (d : List (String × Nat)) (k : String) (v : Nat)
    (h : dictHasKey d k = false) :
    dictGet (d ++ [(k, v)]) k = some v := by
  induction d with
  | nil => simp [dictGet, List.find?]
  | cons p rest ih =>
    have hp : (p.1 == k) = false := by
      rcases hb : p.1 == k with _ | _
      · rfl
      · simp [dictHasKey, hb] at h
    have h2 : dictHasKey rest k = false := by
      simpa [dictHasKey, hp] using h
    simp only [dictGet, List.cons_append, List.find?, hp] at ih ⊢
    exact ih h2

theorem dictGet_dictInsert_self (d : List (String × Nat)) (k : String) (v : Nat) :
    dictGet (dictInsert d k v) k = some v := by
  unfold dictInsert
  by_cases h : dictHasKey d k = true
  · rw [if_pos h]
    exact dictGet_overwrite d k v h
  · rw [if_neg h]
    exact dictGet_append_new d k v (Bool.not_eq_true _ ▸ eq_false_of_ne_true h)

theorem overwrite_keeps_keys (k k2 : String) (v : Nat)
    (d : List (String × Nat)) :
    (d.map (fun p => if p.1 == k then (k, v) else p)).any (fun p => p.1 == k2) =
      d.any (fun p => p.1 == k2) := by
  induction d with
  | nil => rfl
  | cons p rest ih =>
    simp only [List.map_cons, List.any_cons, ih]
    congr 1
    by_cases hp : (p.1 == k) = true
    · have hpk : p.1 = k := eq_of_beq hp
      rw [if_pos hp]
      rw [hpk]
    · rw [if_neg hp]

theorem dictHasKey_dictInsert_ne (d : List (String × Nat)) (k k2 : String)
    (v : Nat) (hne : (k == k2) = false) :
    dictHasKey (dictInsert d k v) k2 = dictHasKey d k2 := by
  unfold dictInsert
  by_cases h : dictHasKey d k = true
  · rw [if_pos h]
    exact overwrite_keeps_keys k k2 v d
  · rw [if_neg h]
    unfold dictHasKey
    rw [List.any_append]
    simp [hne]

/-- C9 evidence: with the same service and region, the second get_client
call constructs a brand-new client instead of returning the cached one:
the cache-hit test compares the bare service name against keys of the
form service_region, so it never hits. -/
theorem c9_get_client_creates_twice (service_name region : String)
    (env_region : Option String) (s : ClientsState)
    (h : dictHasKey s.clients service_name = false) (hr : region ≠ "") :
    (get_client service_name (some region) env_region s).1 = .ok s.nextHandle ∧
    (get_client service_name (some region) env_region
        (get_client service_name (some region) env_region s).2).1 =
      .ok (s.nextHandle + 1) ∧
    s.nextHandle ≠ s.nextHandle + 1 := by
  have hkey : ((service_name ++ "_" ++ region) == service_name) = false := by
    rcases hb : (service_name ++ "_" ++ region) == service_name with _ | _
    · rfl
    · have heq : service_name ++ "_" ++ region = service_name := eq_of_beq hb
      have hlen := congrArg String.length heq
      rw [String.length_append, String.length_append] at hlen
      have : region.length = 0 := by omega
      have hreq : region = "" := by
        cases region with
        | mk data =>
          cases data with
          | nil => rfl
          | cons c cs => simp [String.length] at this
      exact absurd hreq hr
  have hreg : (if region = "" then env_region.getD "eu-west-1" else region) = region :=
    if_neg hr
  constructor
  · simp only [get_client, hreg, h, Bool.false_eq_true, if_false]
    rw [dictGet_dictInsert_self]
  constructor
  · have hstate : (get_client service_name (some region) env_region s).2 =
        { clients := dictInsert s.clients (service_name ++ "_" ++ region) s.nextHandle,
          nextHandle := s.nextHandle + 1 } := by
      simp only [get_client, hreg, h, Bool.false_eq_true, if_false]
      rw [dictGet_dictInsert_self]
    rw [hstate]
    have h2 : dictHasKey (dictInsert s.clients (service_name ++ "_" ++ region)
        s.nextHandle) service_name = false := by
      rw [dictHasKey_dictInsert_ne _ _ _ _ hkey]
      exact h
    simp only [get_client, hreg, h2, Bool.false_eq_true, if_false]
    rw [dictGet_dictInsert_self]
  · omega

/-- C9 witness: two concrete get_client calls for ec2 in eu-west-1 from
the empty cache return two different handles. -/
theorem c9_get_client_creates_twice_witness :
    (dictHasKey (ClientsState.mk [] 0).clients "ec2" = false ∧ "eu-west-1" ≠ "") ∧
    ((get_client "ec2" (some "eu-west-1") none (ClientsState.mk [] 0)).1 = .ok 0 ∧
      (get_client "ec2" (some "eu-west-1") none
          (get_client "ec2" (some "eu-west-1") none (ClientsState.mk [] 0)).2).1 = .ok 1 ∧
      (0 : Nat) ≠ 1) :=
  ⟨⟨by decide, by decide⟩,
   c9_get_client_creates_twice "ec2" "eu-west-1" none (ClientsState.mk [] 0)
     (by decide) (by decide)⟩

/-- The sibling get_resource is cached correctly: a second call with the
same service and region returns the handle created by the first call and
leaves the state unchanged. -/
theorem get_resource_cached (service_name region : String)
    (env_region : Option String) (s : ClientsState)
    (hr : region ≠ "") :
    (get_resource service_name (some region) env_region
        (get_resource service_name (some region) env_region s).2).1 =
      (get_resource service_name (some region) env_region s).1 ∨
    (get_resource service_name (some region) env_region s).1 = .error "KeyError" := by
  have hreg : (if region = "" then env_region.getD "eu-west-1" else region) = region :=
    if_neg hr
  by_cases h : dictHasKey s.clients (service_name ++ "_" ++ region) = true
  · rcases hg : dictGet s.clients (service_name ++ "_" ++ region) with _ | hv
    · right
      simp [get_resource, hreg, h, hg]
    · left
      simp [get_resource, hreg, h, hg]
  · left
    have h2 : dictHasKey s.clients (service_name ++ "_" ++ region) = false :=
      eq_false_of_ne_true h
    have hkey : dictHasKey (dictInsert s.clients (service_name ++ "_" ++ region)
        s.nextHandle) (service_name ++ "_" ++ region) = true := by
      unfold dictInsert
      rw [if_neg h]
      simp [dictHasKey, List.any_append]
    simp only [get_resource, hreg, h2, Bool.false_eq_true, if_false]
    rw [dictGet_dictInsert_self]
    simp only [hkey, if_true]
    rw [dictGet_dictInsert_self]

/-! ## C10: ARN validation -/

/-- C10: for every well-formed ARN (a colon-delimited string starting
with "arn:"), validate_arn returns none, because the arguments to
re.match are swapped: the ARN is used as the pattern and the regex text
as the subject, and a pattern starting with the literal "arn:" cannot
match a subject starting with the caret of the regex text. Consequently
create_by_arn never rejects an ARN input: it always returns the
constructed resource. -/
theorem c10_validate_arn_never_matches (arn : String)
    (h : "arn:".data.isPrefixOf arn.data = true) :
    validate_arn arn = none ∧
    create_by_arn arn = { arn := arn, name := (arn.splitOn ":").getLastD "" } := by
  constructor
  · have hnot : ¬ (arn.data.isPrefixOf arn_re.data = true) := by
      intro hpre
      have h1 : "arn:".data <+: arn.data := List.isPrefixOf_iff_prefix.mp h
      have h2 : arn.data <+: arn_re.data := List.isPrefixOf_iff_prefix.mp hpre
      obtain ⟨t, ht⟩ := h1
      obtain ⟨u, hu⟩ := h2
      rw [← ht] at hu
      have hh : arn_re.data.head? = some (Char.ofNat 97) := by
        rw [← hu]
        rfl
      have hcar : arn_re.data.head? = some (Char.ofNat 94) := rfl
      rw [hcar] at hh
      exact absurd (Option.some.inj hh) (by decide)
    unfold validate_arn re_match_literal
    rw [if_neg hnot]
  · rfl

/-- C10 witness: a concrete well-formed ARN passes validate_arn as none
and is still accepted by create_by_arn. -/
theorem c10_validate_arn_never_matches_witness :
    ("arn:".data.isPrefixOf "arn:aws:s3:::my-bucket".data = true) ∧
    (validate_arn "arn:aws:s3:::my-bucket" = none ∧
      create_by_arn "arn:aws:s3:::my-bucket" =
        { arn := "arn:aws:s3:::my-bucket",
          name := ("arn:aws:s3:::my-bucket".splitOn ":").getLastD "" }) :=
  ⟨by decide, c10_validate_arn_never_matches "arn:aws:s3:::my-bucket" (by decide)⟩

/-! ## C7: dependency edge insertion -/

theorem add_dependency_first (a b : String) (s : DepState)
    (h1 : s.a_dependencies.count b = 0) (h2 : s.b_dependents.count a = 0) :
    (add_dependency a b s).a_dependencies.count b = 1 ∧
    (add_dependency a b s).b_dependents.count a = 1 := by
  have hb : b ∉ s.a_dependencies := List.count_eq_zero.mp h1
  have ha : a ∉ s.b_dependents := List.count_eq_zero.mp h2
  unfold add_dependency
  rw [if_neg hb, if_neg ha]
  constructor
  · simp [List.count_append, h1]
  · simp [List.count_append, h2]

theorem add_dependency_fix (a b : String) (t : DepState)
    (hb : b ∈ t.a_dependencies) : add_dependency a b t = t := by
  unfold add_dependency
  rw [if_pos hb]

theorem add_dependency_iterate_fix (a b : String) (t : DepState)
    (hb : b ∈ t.a_dependencies) : ∀ m, (add_dependency a b)^[m] t = t := by
  intro m
  induction m with
  | zero => rfl
  | succ k ih =>
    rw [Function.iterate_succ_apply, add_dependency_fix a b t hb, ih]

/-- C7: starting from a state in which the edge is absent on both sides,
any positive number of add_dependency(a, b) calls leaves exactly one
occurrence of b in a.dependencies and exactly one occurrence of a in
b.dependents: the insertion is symmetric and idempotent. -/
theorem c7_add_dependency_idempotent (a b : String) (s : DepState) (n : Nat)
    (hn : 1 ≤ n)
    (h1 : s.a_dependencies.count b = 0) (h2 : s.b_dependents.count a = 0) :
    ((add_dependency a b)^[n] s).a_dependencies.count b = 1 ∧
    ((add_dependency a b)^[n] s).b_dependents.count a = 1 := by
  obtain ⟨k, rfl⟩ : ∃ k, n = k + 1 := ⟨n - 1, by omega⟩
  rw [Function.iterate_succ_apply]
  have hfirst := add_dependency_first a b s h1 h2
  have hmem : b ∈ (add_dependency a b s).a_dependencies :=
    List.count_pos_iff.mp (by rw [hfirst.1]; exact Nat.one_pos)
  rw [add_dependency_iterate_fix a b _ hmem k]
  exact hfirst

/-- C7 witness: three repeated calls on concrete fresh nodes leave one
edge in each direction. -/
theorem c7_add_dependency_idempotent_witness :
    (1 ≤ 3 ∧ (DepState.mk [] []).a_dependencies.count "subnet-1" = 0 ∧
      (DepState.mk [] []).b_dependents.count "natgw-1" = 0) ∧
    (((add_dependency "natgw-1" "subnet-1")^[3]
        (DepState.mk [] [])).a_dependencies.count "subnet-1" = 1 ∧
      ((add_dependency "natgw-1" "subnet-1")^[3]
        (DepState.mk [] [])).b_dependents.count "natgw-1" = 1) :=
  ⟨⟨by decide, by decide, by decide⟩,
   c7_add_dependency_idempotent "natgw-1" "subnet-1" (DepState.mk [] []) 3
     (by decide) (by decide) (by decide)⟩

/-! ## C6: single path propagates, batch path swallows -/

/-- C6: when remove raises, the single-resource path re-raises the same
exception to its caller after logging the failure, while the batch path
completes normally, counting the same resource as one failure and still
producing its summary log. -/
theorem c6_single_path_propagates (pref arn e : String) :
    (execute_removal pref { arn := arn, removeResult := .error e }).1 = .error e ∧
    ("Failed to remove resource " ++ arn ++ ": " ++ e) ∈
      (execute_removal pref { arn := arn, removeResult := .error e }).2 ∧
    (execute_batch_removal pref [{ arn := arn, removeResult := .error e }]).failure = 1 ∧
    (execute_batch_removal pref [{ arn := arn, removeResult := .error e }]).success = 0 ∧
    (execute_batch_removal pref [{ arn := arn, removeResult := .error e }]).logs.getLast? =
      some (pref ++ "Batch operation complete: " ++ toString (0 : Nat) ++
        " succeeded, " ++ toString (1 : Nat) ++ " failed") := by
  refine ⟨rfl, ?_, rfl, rfl, rfl⟩
  simp [execute_removal]

/-! ## C5: the interactive confirmation branch raises -/

/-- C5 evidence: with dry_run and auto_approve both false (and likewise
with no context), _should_proceed reaches the interactive branch, whose
call ask_delete_confirm(self.name, context) passes two positional
arguments to a one-parameter function, so it raises a TypeError instead
of returning the user choice. -/
theorem c5_interactive_gate_raises (name od : String) (uc : Bool)
    (ctx : ExecutionContext) (h1 : ctx.dry_run = false)
    (h2 : ctx.auto_approve = false) :
    (should_proceed name (some ctx) od uc).result =
      .error "TypeError: ask_delete_confirm() takes 1 positional argument but 2 were given" ∧
    (should_proceed name none od uc).result =
      .error "TypeError: ask_delete_confirm() takes 1 positional argument but 2 were given" := by
  constructor
  · simp [should_proceed, h1, h2, call_ask_delete_confirm,
      should_proceed_callArgCount, ask_delete_confirm_paramCount]
  · simp [should_proceed, call_ask_delete_confirm,
      should_proceed_callArgCount, ask_delete_confirm_paramCount]

/-- C5 witness: the gate raises on a concrete interactive context. -/
theorem c5_interactive_gate_raises_witness :
    ((ExecutionContext.mk false false none none).dry_run = false ∧
      (ExecutionContext.mk false false none none).auto_approve = false) ∧
    ((should_proceed "my-pipeline" (some (ExecutionContext.mk false false none none))
        "delete pipeline" true).result =
      .error "TypeError: ask_delete_confirm() takes 1 positional argument but 2 were given" ∧
     (should_proceed "my-pipeline" none "delete pipeline" true).result =
      .error "TypeError: ask_delete_confirm() takes 1 positional argument but 2 were given") :=
  ⟨⟨rfl, rfl⟩,
   c5_interactive_gate_raises "my-pipeline" "delete pipeline" true
     (ExecutionContext.mk false false none none) rfl rfl⟩

/-! ## C3: live dependencies block deletion, one-hop only -/

theorem depWalk_fst (exOracle : String → Bool) (l : List VPCNode) :
    (depWalk exOracle l).1 = l.all (fun d => !exOracle d.arn) := by
  induction l with
  | nil => rfl
  | cons d rest ih =>
    unfold depWalk
    by_cases hd : exOracle d.arn = true
    · rw [if_pos hd]
      simp [hd]
    · have hd2 : exOracle d.arn = false := eq_false_of_ne_true hd
      rw [if_neg hd]
      simp [hd2, ih]

theorem depWalk_trace_sub (exOracle : String → Bool) (l : List VPCNode) :
    ∀ x ∈ (depWalk exOracle l).2, x ∈ l.map VPCNode.arn := by
  induction l with
  | nil => intro x hx; cases hx
  | cons d rest ih =>
    intro x hx
    unfold depWalk at hx
    rw [List.map_cons]
    by_cases hd : exOracle d.arn = true
    · rw [if_pos hd] at hx
      rw [List.mem_singleton.mp hx]
      exact List.mem_cons_self _ _
    · rw [if_neg hd] at hx
      rcases List.mem_cons.mp hx with rfl | hx
      · exact List.mem_cons_self _ _
      · exact List.mem_cons_of_mem _ (ih x hx)

theorem depWalk_congr (exOracle : String → Bool) (l1 l2 : List VPCNode)
    (h : l1.map VPCNode.arn = l2.map VPCNode.arn) :
    depWalk exOracle l1 = depWalk exOracle l2 := by
  induction l1 generalizing l2 with
  | nil =>
    cases l2 with
    | nil => rfl
    | cons d2 rest2 => simp [List.map_cons] at h
  | cons d rest ih =>
    cases l2 with
    | nil => simp [List.map_cons] at h
    | cons d2 rest2 =>
      simp only [List.map_cons, List.cons.injEq] at h
      obtain ⟨ha, hrest⟩ := h
      unfold depWalk
      rw [ha, ih rest2 hrest]

/-- C3: a live direct dependency forces can_delete to return false; the
walk queries exists() only on the direct dependencies (its trace is
contained in their identities), and the result is unchanged when the
dependencies are replaced by any nodes with the same identities but
arbitrary deeper structure: no transitive expansion happens. -/
theorem c3_live_dependency_blocks (exOracle : String → Bool) (n : VPCNode)
    (d : VPCNode) (hd : d ∈ n.dependencies) (hl : exOracle d.arn = true) :
    (vpcNode_can_delete exOracle n).1 = false ∧
    (∀ x ∈ (vpcNode_can_delete exOracle n).2, x ∈ n.dependencies.map VPCNode.arn) ∧
    (∀ m : VPCNode, m.is_default = n.is_default →
      m.dependencies.map VPCNode.arn = n.dependencies.map VPCNode.arn →
      vpcNode_can_delete exOracle m = vpcNode_can_delete exOracle n) := by
  refine ⟨?_, ?_, ?_⟩
  · unfold vpcNode_can_delete
    by_cases hdef : n.is_default = true
    · rw [if_pos hdef]
    · rw [if_neg hdef]
      rw [depWalk_fst]
      rcases hall : n.dependencies.all (fun d => !exOracle d.arn) with _ | _
      · rfl
      · have hx := List.all_eq_true.mp hall d hd
        rw [hl] at hx
        simp at hx
  · unfold vpcNode_can_delete
    by_cases hdef : n.is_default = true
    · rw [if_pos hdef]
      intro x hx
      cases hx
    · rw [if_neg hdef]
      exact depWalk_trace_sub exOracle n.dependencies
  · intro m hm1 hm2
    unfold vpcNode_can_delete
    rw [hm1, depWalk_congr exOracle m.dependencies n.dependencies hm2]

/-- C3 witness: a subnet node with one live network-interface dependency
is not deletable, and the walk only queried that direct dependency. -/
theorem c3_live_dependency_blocks_witness :
    (VPCNode.mk "eni-1" false [] ∈
        (VPCNode.mk "subnet-1" false [VPCNode.mk "eni-1" false []]).dependencies ∧
      (fun a => a == "eni-1") (VPCNode.mk "eni-1" false []).arn = true) ∧
    ((vpcNode_can_delete (fun a => a == "eni-1")
        (VPCNode.mk "subnet-1" false [VPCNode.mk "eni-1" false []])).1 = false ∧
      (∀ x ∈ (vpcNode_can_delete (fun a => a == "eni-1")
          (VPCNode.mk "subnet-1" false [VPCNode.mk "eni-1" false []])).2,
        x ∈ (VPCNode.mk "subnet-1" false
          [VPCNode.mk "eni-1" false []]).dependencies.map VPCNode.arn) ∧
      (∀ m : VPCNode, m.is_default =
          (VPCNode.mk "subnet-1" false [VPCNode.mk "eni-1" false []]).is_default →
        m.dependencies.map VPCNode.arn =
          (VPCNode.mk "subnet-1" false
            [VPCNode.mk "eni-1" false []]).dependencies.map VPCNode.arn →
        vpcNode_can_delete (fun a => a == "eni-1") m =
          vpcNode_can_delete (fun a => a == "eni-1")
            (VPCNode.mk "subnet-1" false [VPCNode.mk "eni-1" false []]))) :=
  ⟨⟨List.mem_singleton_self _, by decide⟩,
   c3_live_dependency_blocks (fun a => a == "eni-1")
     (VPCNode.mk "subnet-1" false [VPCNode.mk "eni-1" false []])
     (VPCNode.mk "eni-1" false []) (List.mem_singleton_self _) (by decide)⟩

/-! ## C4: batch removal attempts all resources and tallies exactly -/

theorem batchLoop_spec (pref : String) (l : List BatchResource) :
    (batchLoop pref l).success = l.countP removeOk ∧
    (batchLoop pref l).failure = l.countP (fun r => !removeOk r) ∧
    (batchLoop pref l).attempted = l.map (fun r => r.arn) := by
  induction l with
  | nil => exact ⟨rfl, rfl, rfl⟩
  | cons r rest ih =>
    obtain ⟨ihs, ihf, iha⟩ := ih
    rcases hr : r.removeResult with e | u
    · have hok : removeOk r = false := by simp [removeOk, hr]
      refine ⟨?_, ?_, ?_⟩
      · simp [batchLoop, hr, List.countP_cons, hok, ihs]
      · simp [batchLoop, hr, List.countP_cons, hok, ihf]
      · simp [batchLoop, hr, List.map_cons, iha]
    · have hok : removeOk r = true := by simp [removeOk, hr]
      refine ⟨?_, ?_, ?_⟩
      · simp [batchLoop, hr, List.countP_cons, hok, ihs]
      · simp [batchLoop, hr, List.countP_cons, hok, ihf]
      · simp [batchLoop, hr, List.map_cons, iha]

theorem countP_not_add (l : List BatchResource) :
    l.countP removeOk + l.countP (fun r => !removeOk r) = l.length := by
  induction l with
  | nil => rfl
  | cons r rest ih =>
    rcases hb : removeOk r with _ | _
    · simp [List.countP_cons, hb]
      omega
    · simp [List.countP_cons, hb]
      omega

/-- C4: for a non-empty batch in which K resources raise and the others
return normally, every resource is attempted in input order and the
final summary log reports exactly N-K succeeded and K failed. -/
theorem c4_batch_summary (pref : String) (resources : List BatchResource)
    (h : resources ≠ []) :
    (execute_batch_removal pref resources).attempted =
      resources.map (fun r => r.arn) ∧
    (execute_batch_removal pref resources).success =
      resources.length - resources.countP (fun r => !removeOk r) ∧
    (execute_batch_removal pref resources).failure =
      resources.countP (fun r => !removeOk r) ∧
    (execute_batch_removal pref resources).logs.getLast? =
      some (pref ++ "Batch operation complete: " ++
        toString (resources.length - resources.countP (fun r => !removeOk r)) ++
        " succeeded, " ++
        toString (resources.countP (fun r => !removeOk r)) ++ " failed") := by
  have hne : resources.isEmpty = false := by
    cases resources with
    | nil => exact absurd rfl h
    | cons r rest => rfl
  obtain ⟨hs, hf, ha⟩ := batchLoop_spec pref resources
  have hEq : resources.countP removeOk =
      resources.length - resources.countP (fun r => !removeOk r) := by
    have := countP_not_add resources
    omega
  simp only [execute_batch_removal, hne, Bool.false_eq_true, if_false]
  refine ⟨ha, ?_, hf, ?_⟩
  · exact hs.trans hEq
  · rw [List.getLast?_concat, hs, hf, hEq]

/-- C4 witness: a concrete batch of three resources with one failure is
fully attempted and summarised as 2 succeeded, 1 failed. -/
theorem c4_batch_summary_witness :
    ([BatchResource.mk "arn:a" (.ok ()), BatchResource.mk "arn:b" (.error "boom"),
        BatchResource.mk "arn:c" (.ok ())] ≠ []) ∧
    ((execute_batch_removal "" [BatchResource.mk "arn:a" (.ok ()),
        BatchResource.mk "arn:b" (.error "boom"),
        BatchResource.mk "arn:c" (.ok ())]).attempted =
      [BatchResource.mk "arn:a" (.ok ()), BatchResource.mk "arn:b" (.error "boom"),
        BatchResource.mk "arn:c" (.ok ())].map (fun r => r.arn) ∧
     (execute_batch_removal "" [BatchResource.mk "arn:a" (.ok ()),
        BatchResource.mk "arn:b" (.error "boom"),
        BatchResource.mk "arn:c" (.ok ())]).success =
      [BatchResource.mk "arn:a" (.ok ()), BatchResource.mk "arn:b" (.error "boom"),
        BatchResource.mk "arn:c" (.ok ())].length -
        [BatchResource.mk "arn:a" (.ok ()), BatchResource.mk "arn:b" (.error "boom"),
          BatchResource.mk "arn:c" (.ok ())].countP (fun r => !removeOk r) ∧
     (execute_batch_removal "" [BatchResource.mk "arn:a" (.ok ()),
        BatchResource.mk "arn:b" (.error "boom"),
        BatchResource.mk "arn:c" (.ok ())]).failure =
      [BatchResource.mk "arn:a" (.ok ()), BatchResource.mk "arn:b" (.error "boom"),
        BatchResource.mk "arn:c" (.ok ())].countP (fun r => !removeOk r) ∧
     (execute_batch_removal "" [BatchResource.mk "arn:a" (.ok ()),
        BatchResource.mk "arn:b" (.error "boom"),
        BatchResource.mk "arn:c" (.ok ())]).logs.getLast? =
      some ("" ++ "Batch operation complete: " ++
        toString ([BatchResource.mk "arn:a" (.ok ()),
          BatchResource.mk "arn:b" (.error "boom"),
          BatchResource.mk "arn:c" (.ok ())].length -
          [BatchResource.mk "arn:a" (.ok ()), BatchResource.mk "arn:b" (.error "boom"),
            BatchResource.mk "arn:c" (.ok ())].countP (fun r => !removeOk r)) ++
        " succeeded, " ++
        toString ([BatchResource.mk "arn:a" (.ok ()),
          BatchResource.mk "arn:b" (.error "boom"),
          BatchResource.mk "arn:c" (.ok ())].countP (fun r => !removeOk r)) ++
        " failed")) :=
  ⟨by decide,
   c4_batch_summary "" [BatchResource.mk "arn:a" (.ok ()),
     BatchResource.mk "arn:b" (.error "boom"),
     BatchResource.mk "arn:c" (.ok ())] (by decide)⟩

/-! ## C8: collection filters are pure and exact -/

theorem matches_tags_iff (tags : List (String × String)) (r : CollResource) :
    matches_tags tags r = true ↔
      ∀ p ∈ tags, tagDictGet r.tags p.1 = some p.2 := by
  unfold matches_tags
  by_cases hrt : r.tags.isEmpty = true
  · rw [if_pos hrt]
    have hnil : r.tags = [] := List.isEmpty_iff.mp hrt
    constructor
    · intro ht p hp
      rw [List.isEmpty_iff.mp ht] at hp
      cases hp
    · intro hall
      cases htags : tags with
      | nil => rfl
      | cons p rest =>
        have hm := hall p (htags ▸ List.mem_cons_self p rest)
        rw [hnil] at hm
        simp [tagDictGet] at hm
  · rw [if_neg hrt]
    rw [List.all_eq_true]
    constructor
    · intro hall p hp
      exact eq_of_beq (hall p hp)
    · intro hall p hp
      exact beq_iff_eq.mpr (hall p hp)

/-- C8: filter_by_tags and exclude_default_resources return the original
collection unchanged as the receiver (no in-place mutation), and their
results contain, per resource type, exactly the resources matching every
given tag key/value pair, respectively exactly the non-default
resources. -/
theorem c8_collection_filters_pure (c : VPCResourceCollection)
    (tags : List (String × String)) (t : VpcResourceType) (r : CollResource) :
    (filter_by_tags c tags).2 = c ∧
    (exclude_default_resources c).2 = c ∧
    (r ∈ ((filter_by_tags c tags).1.byType t) ↔
      r ∈ c.byType t ∧ ∀ p ∈ tags, tagDictGet r.tags p.1 = some p.2) ∧
    (r ∈ ((exclude_default_resources c).1.byType t) ↔
      r ∈ c.byType t ∧ r.is_default = false) := by
  refine ⟨rfl, rfl, ?_, ?_⟩
  · cases t <;>
      simp [filter_by_tags, VPCResourceCollection.byType, List.mem_filter,
        matches_tags_iff]
  · cases t <;>
      simp [exclude_default_resources, VPCResourceCollection.byType,
        List.mem_filter]

/-! ## C2: default resources are protected -/

theorem subnetDepWalk_events (sa : String) (l : List SubnetDependencyRef) :
    NoMut (subnetDepWalk sa l).2 := by
  induction l with
  | nil => exact noMut_nil
  | cons d rest ih =>
    unfold subnetDepWalk
    by_cases hd : d.live = true
    · rw [if_pos hd]
      intro e he
      rcases List.mem_cons.mp he with rfl | he
      · rfl
      · rw [List.mem_singleton.mp he]
        rfl
    · rw [if_neg hd]
      exact noMut_cons rfl ih

theorem subnet_super_events (r : SubnetResource) (w : SubnetWorld) :
    NoMut (subnet_super_can_delete r w).2 := by
  simp only [subnet_super_can_delete]
  by_cases hd : (r.is_default_resource w).1 = true
  · rw [if_pos hd]
    exact noMut_append (is_default_resource_events r w).1
      (by intro e he; rw [List.mem_singleton.mp he]; rfl)
  · rw [if_neg hd]
    exact noMut_append (is_default_resource_events r w).1
      (subnetDepWalk_events r.arn r.dependencies)

theorem can_delete_noMut (r : SubnetResource) (w : SubnetWorld) :
    NoMut (r.can_delete w).2 := by
  have hsupMut := subnet_super_events r w
  rcases hsup : (subnet_super_can_delete r w).1 with _ | _
  · simp only [SubnetResource.can_delete, hsup, Bool.not_false, if_true]
    exact hsupMut
  · simp only [SubnetResource.can_delete, hsup, Bool.not_true, Bool.false_eq_true,
      if_false]
    rcases hni : w.describe_network_interfaces with er | enis
    · exact noMut_append hsupMut
        (by intro e he
            rcases List.mem_cons.mp he with rfl | he
            · rfl
            · rw [List.mem_singleton.mp he]; rfl)
    · by_cases hee : enis.isEmpty = true
      · simp only [hee, Bool.not_true, Bool.false_eq_true, if_false]
        rcases hin : w.describe_instances with er2 | insts
        · exact noMut_append hsupMut
            (by intro e he
                rcases List.mem_cons.mp he with rfl | he
                · rfl
                rcases List.mem_cons.mp he with rfl | he
                · rfl
                · rw [List.mem_singleton.mp he]; rfl)
        · by_cases hie : insts.isEmpty = true
          · simp only [hie, Bool.not_true, Bool.false_eq_true, if_false]
            exact noMut_append hsupMut
              (by intro e he
                  rcases List.mem_cons.mp he with rfl | he
                  · rfl
                  · rw [List.mem_singleton.mp he]; rfl)
          · have hie2 : insts.isEmpty = false := eq_false_of_ne_true hie
            simp only [hie2, Bool.not_false, if_true]
            refine noMut_append (noMut_append hsupMut ?_) (noMut_map_log _ insts)
            intro e he
            rcases List.mem_cons.mp he with rfl | he
            · rfl
            rcases List.mem_cons.mp he with rfl | he
            · rfl
            · rw [List.mem_singleton.mp he]; rfl
      · have hee2 : enis.isEmpty = false := eq_false_of_ne_true hee
        simp only [hee2, Bool.not_false, if_true]
        refine noMut_append (noMut_append hsupMut ?_) (noMut_map_log _ enis)
        intro e he
        rcases List.mem_cons.mp he with rfl | he
        · rfl
        · rw [List.mem_singleton.mp he]; rfl

theorem subnet_super_can_delete_eq_default (r : SubnetResource) (w : SubnetWorld)
    (h : (r.is_default_resource w).1 = true) :
    subnet_super_can_delete r w =
      (false, (r.is_default_resource w).2 ++
        [.log ("Cannot delete default resource: " ++ r.arn)]) := by
  simp [subnet_super_can_delete, h]

theorem can_delete_eq_of_super_false (r : SubnetResource) (w : SubnetWorld)
    (h : (subnet_super_can_delete r w).1 = false) :
    r.can_delete w = (false, (subnet_super_can_delete r w).2) := by
  simp [SubnetResource.can_delete, h]

theorem remove_eq_of_cd_false (r : SubnetResource) (ctx : Option ExecutionContext)
    (w : SubnetWorld) (h : (r.can_delete w).1 = false) :
    r.remove ctx w =
      (.ok (), [Event.log (ctxPref ctx ++ "Attempting to delete subnet: " ++
          r.subnet_id ++ " (" ++ r.name ++ ")")] ++
        (r.can_delete w).2 ++
        [.log ("Cannot delete subnet " ++ r.subnet_id ++
          " - dependencies exist or it\x27s protected")]) := by
  simp [SubnetResource.remove, h]

/-- C2: a resource whose is_default_resource() is true is never
deletable: the generic VPCResource.can_delete returns false with an
empty exists-query trace (before any dependency is examined), the subnet
can_delete returns false with no dependency or usage check in its trace,
and remove returns normally without issuing any mutating call. -/
theorem c2_default_protected (exOracle : String → Bool) (n : VPCNode)
    (r : SubnetResource) (w : SubnetWorld) (ctx : Option ExecutionContext)
    (hn : n.is_default = true) (hr : (r.is_default_resource w).1 = true) :
    vpcNode_can_delete exOracle n = (false, []) ∧
    (r.can_delete w).1 = false ∧
    NoDepUsage (r.can_delete w).2 ∧
    (r.remove ctx w).1 = .ok () ∧
    NoMut (r.remove ctx w).2 := by
  have hsup := subnet_super_can_delete_eq_default r w hr
  have hsupf : (subnet_super_can_delete r w).1 = false := by rw [hsup]
  have hcd := can_delete_eq_of_super_false r w hsupf
  have hcdf : (r.can_delete w).1 = false := by rw [hcd]
  have hrm := remove_eq_of_cd_false r ctx w hcdf
  refine ⟨?_, hcdf, ?_, ?_, ?_⟩
  · simp [vpcNode_can_delete, hn]
  · rw [hcd]
    show NoDepUsage (subnet_super_can_delete r w).2
    rw [hsup]
    show NoDepUsage ((r.is_default_resource w).2 ++ [_])
    exact noDepUsage_append (is_default_resource_events r w).2
      (by intro e he; rw [List.mem_singleton.mp he]; rfl)
  · rw [hrm]
  · rw [hrm]
    show NoMut ([_] ++ (r.can_delete w).2 ++ [_])
    refine noMut_append (noMut_append ?_ (can_delete_noMut r w)) ?_
    · intro e he; rw [List.mem_singleton.mp he]; rfl
    · intro e he; rw [List.mem_singleton.mp he]; rfl


/-- C2 witness: a concrete default subnet is protected end to end. -/
theorem c2_default_protected_witness :
    ((VPCNode.mk "vpc-main" true []).is_default = true ∧
      (sampleSubnet.is_default_resource defaultSubnetWorld).1 = true) ∧
    (vpcNode_can_delete (fun _ => false) (VPCNode.mk "vpc-main" true []) =
        (false, []) ∧
      (sampleSubnet.can_delete defaultSubnetWorld).1 = false ∧
      NoDepUsage (sampleSubnet.can_delete defaultSubnetWorld).2 ∧
      (sampleSubnet.remove none defaultSubnetWorld).1 = .ok () ∧
      NoMut (sampleSubnet.remove none defaultSubnetWorld).2) :=
  ⟨⟨rfl, rfl⟩,
   c2_default_protected (fun _ => false) (VPCNode.mk "vpc-main" true [])
     sampleSubnet defaultSubnetWorld none rfl rfl⟩

/-! ## C1: dry-run never mutates -/

theorem should_proceed_dry (name od : String) (uc : Bool)
    (c : ExecutionContext) (h : c.dry_run = true) :
    should_proceed name (some c) od uc =
      { result := .ok false,
        logs := ["[DRY-RUN] " ++ "Would " ++ od ++ ": " ++ name] } := by
  simp [should_proceed, h, ExecutionContext.logPref]

theorem clean_eni_events_dry_noMut (pref : String) (w : SubnetWorld) (eni : Eni) :
    NoMut (clean_eni_events pref true w eni) := by
  unfold clean_eni_events
  by_cases h1 : eni.aws_managed = true
  · rw [if_pos h1]
    intro e he
    rw [List.mem_singleton.mp he]
    rfl
  · rw [if_neg h1]
    by_cases h2 : eni.attached_to_instance = true
    · rw [if_pos h2]
      intro e he
      rw [List.mem_singleton.mp he]
      rfl
    · rw [if_neg h2, if_pos rfl]
      intro e he
      rcases List.mem_cons.mp he with rfl | he
      · rfl
      · rw [List.mem_singleton.mp he]
        rfl

theorem noMut_flatten (L : List (List Event)) (h : ∀ l ∈ L, NoMut l) :
    NoMut L.flatten := by
  intro e he
  rcases List.mem_flatten.mp he with ⟨l, hl, hel⟩
  exact h l hl e hel

theorem clean_network_interfaces_dry_noMut (r : SubnetResource) (pref : String)
    (w : SubnetWorld) : NoMut (clean_network_interfaces r pref true w) := by
  unfold clean_network_interfaces
  rcases hni : w.describe_network_interfaces with er | enis
  · intro e he
    rcases List.mem_cons.mp he with rfl | he
    · rfl
    · rw [List.mem_singleton.mp he]
      rfl
  · refine noMut_cons rfl (noMut_flatten _ ?_)
    intro l hl
    rcases List.mem_map.mp hl with ⟨eni, _, rfl⟩
    exact clean_eni_events_dry_noMut pref w eni

theorem clean_assoc_events_dry_noMut (pref : String) (w : SubnetWorld)
    (sid rtid : String) (assoc : RtAssociation) :
    NoMut (clean_assoc_events pref true w sid rtid assoc) := by
  unfold clean_assoc_events
  by_cases h1 : assoc.subnet_id = some sid
  · rw [if_pos h1, if_pos rfl]
    intro e he
    rcases List.mem_cons.mp he with rfl | he
    · rfl
    · rw [List.mem_singleton.mp he]
      rfl
  · rw [if_neg h1]
    exact noMut_nil

theorem clean_rt_events_dry_noMut (pref : String) (w : SubnetWorld)
    (sid : String) (rt : RouteTable) :
    NoMut (clean_rt_events pref true w sid rt) := by
  unfold clean_rt_events
  by_cases h1 : rt.associations.any (fun a => a.main) = true
  · rw [if_pos h1]
    intro e he
    rw [List.mem_singleton.mp he]
    rfl
  · rw [if_neg h1]
    refine noMut_flatten _ ?_
    intro l hl
    rcases List.mem_map.mp hl with ⟨assoc, _, rfl⟩
    exact clean_assoc_events_dry_noMut pref w sid rt.route_table_id assoc

theorem clean_route_table_associations_dry_noMut (r : SubnetResource)
    (pref : String) (w : SubnetWorld) :
    NoMut (clean_route_table_associations r pref true w) := by
  unfold clean_route_table_associations
  rcases hrt : w.describe_route_tables with er | rts
  · intro e he
    rcases List.mem_cons.mp he with rfl | he
    · rfl
    · rw [List.mem_singleton.mp he]
      rfl
  · refine noMut_cons rfl (noMut_flatten _ ?_)
    intro l hl
    rcases List.mem_map.mp hl with ⟨rt, _, rfl⟩
    exact clean_rt_events_dry_noMut pref w r.subnet_id rt

theorem clean_dry_would_eni (r : SubnetResource) (pref : String) (w : SubnetWorld)
    (enis : List Eni) (hni : w.describe_network_interfaces = .ok enis)
    (eni : Eni) (he : eni ∈ enis) (h1 : eni.aws_managed = false)
    (h2 : eni.attached_to_instance = false) :
    Event.log (pref ++ "Would delete network interface: " ++ eni.eni_id) ∈
      clean_network_interfaces r pref true w := by
  unfold clean_network_interfaces
  rw [hni]
  apply List.mem_cons_of_mem
  apply List.mem_flatten.mpr
  refine ⟨clean_eni_events pref true w eni, List.mem_map_of_mem _ he, ?_⟩
  unfold clean_eni_events
  rw [if_neg (by simp [h1]), if_neg (by simp [h2]), if_pos rfl]
  exact List.mem_cons_of_mem _ (List.mem_singleton_self _)

/-- C1: under a dry-run context (auto_approve arbitrary: dry-run is
checked first and wins), the subnet remove and clean operations perform
no mutating provider call, remove returns normally, and where a mutating
call would have happened a "Would ..." message is logged instead: the
operation description when the subnet is deletable, and a per-interface
"Would delete network interface" message for every interface the cleanup
would otherwise delete. -/
theorem c1_dry_run_no_mutation (r : SubnetResource) (ctx : ExecutionContext)
    (w : SubnetWorld) (h : ctx.dry_run = true) :
    NoMut (r.remove (some ctx) w).2 ∧
    (r.remove (some ctx) w).1 = .ok () ∧
    ((r.can_delete w).1 = true →
      Event.log ("[DRY-RUN] " ++ "Would " ++ operation_desc r ++ ": " ++ r.name) ∈
        (r.remove (some ctx) w).2) ∧
    NoMut (r.clean (some ctx) w) ∧
    (∀ enis, w.describe_network_interfaces = .ok enis →
      ∀ eni ∈ enis, eni.aws_managed = false → eni.attached_to_instance = false →
        Event.log ("[DRY-RUN] " ++ "Would delete network interface: " ++ eni.eni_id) ∈
          r.clean (some ctx) w) := by
  have hpref : ctxPref (some ctx) = "[DRY-RUN] " := by
    simp [ctxPref, ExecutionContext.logPref, h]
  have hdry : ctxDry (some ctx) = true := by
    simp [ctxDry, h]
  have hclean_noMut : NoMut (r.clean (some ctx) w) := by
    unfold SubnetResource.clean
    rw [hdry]
    exact noMut_cons rfl
      (noMut_append (clean_network_interfaces_dry_noMut r _ w)
        (clean_route_table_associations_dry_noMut r _ w))
  have hclean_would : ∀ enis, w.describe_network_interfaces = .ok enis →
      ∀ eni ∈ enis, eni.aws_managed = false → eni.attached_to_instance = false →
        Event.log ("[DRY-RUN] " ++ "Would delete network interface: " ++ eni.eni_id) ∈
          r.clean (some ctx) w := by
    intro enis hni eni he h1 h2
    unfold SubnetResource.clean
    rw [hdry, hpref]
    exact List.mem_cons_of_mem _
      (List.mem_append_left _ (clean_dry_would_eni r _ w enis hni eni he h1 h2))
  rcases hcd : (r.can_delete w).1 with _ | _
  · have hrm := remove_eq_of_cd_false r (some ctx) w hcd
    refine ⟨?_, ?_, ?_, hclean_noMut, hclean_would⟩
    · rw [hrm]
      refine noMut_append (noMut_append ?_ (can_delete_noMut r w)) ?_
      · intro e he; rw [List.mem_singleton.mp he]; rfl
      · intro e he; rw [List.mem_singleton.mp he]; rfl
    · rw [hrm]
    · intro hc
      exact (Bool.false_ne_true hc).elim
  · have hsp := should_proceed_dry r.name (operation_desc r) w.user_choice ctx h
    have hrm : r.remove (some ctx) w =
        (.ok (), [Event.log (ctxPref (some ctx) ++ "Attempting to delete subnet: " ++
            r.subnet_id ++ " (" ++ r.name ++ ")")] ++
          (r.can_delete w).2 ++
          [Event.log ("[DRY-RUN] " ++ "Would " ++ operation_desc r ++ ": " ++ r.name)] ++
          [Event.log "Subnet deletion skipped"]) := by
      simp only [SubnetResource.remove, hcd, Bool.not_true, Bool.false_eq_true,
        if_false, hsp, List.map_cons, List.map_nil]
    refine ⟨?_, ?_, ?_, hclean_noMut, hclean_would⟩
    · rw [hrm]
      refine noMut_append (noMut_append (noMut_append ?_ (can_delete_noMut r w)) ?_) ?_
      · intro e he; rw [List.mem_singleton.mp he]; rfl
      · intro e he; rw [List.mem_singleton.mp he]; rfl
      · intro e he; rw [List.mem_singleton.mp he]; rfl
    · rw [hrm]
    · intro _
      rw [hrm]
      exact List.mem_append_left _
        (List.mem_append_right _ (List.mem_singleton_self _))


/-- C1 witness: with dry-run and auto-approve both set, the concrete
subnet removal and cleanup stay read-only and log the Would messages. -/
theorem c1_dry_run_no_mutation_witness :
    dryCtx.dry_run = true ∧
    (NoMut (sampleSubnet.remove (some dryCtx) eniWorld).2 ∧
      (sampleSubnet.remove (some dryCtx) eniWorld).1 = .ok () ∧
      ((sampleSubnet.can_delete eniWorld).1 = true →
        Event.log ("[DRY-RUN] " ++ "Would " ++ operation_desc sampleSubnet ++
            ": " ++ sampleSubnet.name) ∈
          (sampleSubnet.remove (some dryCtx) eniWorld).2) ∧
      NoMut (sampleSubnet.clean (some dryCtx) eniWorld) ∧
      (∀ enis, eniWorld.describe_network_interfaces = .ok enis →
        ∀ eni ∈ enis, eni.aws_managed = false → eni.attached_to_instance = false →
          Event.log ("[DRY-RUN] " ++ "Would delete network interface: " ++
              eni.eni_id) ∈
            sampleSubnet.clean (some dryCtx) eniWorld)) :=
  ⟨rfl, c1_dry_run_no_mutation sampleSubnet dryCtx eniWorld rfl⟩

end AwsSwiffer
